import Mathlib

/-!
Verification of the player-controller module (`src/player.rs`) of mijocraft.

The Rust systems are embedded shallowly: `f32` scalars become `ℚ`, engine
queries become explicit arguments, `EventWriter` output becomes a returned
list of events, and a panicking `unwrap` becomes `Option` with `none` for
the abort. Constants that live in modules outside the given sources
(`TILE_SIZE` from the chunk module, `lerp` and `get_chunk_position` from the
utils module) are passed as parameters or modelled from the spec, as noted
on each definition.
-/

/-- Two-dimensional vector over `ℚ`, standing in for the engine `Vec2`. -/
structure Vec2 where
  x : ℚ
  y : ℚ
deriving DecidableEq

/-- Integer two-dimensional vector, standing in for the engine `IVec2`. -/
structure IVec2 where
  x : ℤ
  y : ℤ
deriving DecidableEq

/-- The `Player` component: `is_on_ground`, `direction` (an `i8` in the
source, embedded as `ℤ`), and the `noclip` flag. -/
structure Player where
  is_on_ground : Bool
  direction : ℤ
  noclip : Bool
deriving DecidableEq

/-- The `PlayerSprite` component holding the cosmetic rotation angle. -/
structure PlayerSprite where
  rotation : ℚ
deriving DecidableEq

/-- The `UnloadChunks` event sent to the chunk manager. -/
structure UnloadChunks where
  force : Bool
deriving DecidableEq

/-- One hit reported by the downward shape probe, with the two contact
normals the physics engine reports for the pair. -/
structure ShapeHit where
  normal1 : Vec2
  normal2 : Vec2
deriving DecidableEq

/-- Keyboard state consumed by `player_input`: `just_pressed` for KeyF and
`pressed` for the movement keys. -/
structure Keyboard where
  fJustPressed : Bool
  left : Bool
  a : Bool
  right : Bool
  d : Bool
  space : Bool
  w : Bool
  up : Bool
  s : Bool
  down : Bool
deriving DecidableEq

/-- `PLAYER_SIZE` constant from `player.rs`. -/
def PLAYER_SIZE : ℚ := 28

/-- `GRAVITY_ACCEL` constant from `player.rs`. -/
def GRAVITY_ACCEL : ℚ := 98.07

/-- `TERMINAL_GRAVITY` constant from `player.rs`. -/
def TERMINAL_GRAVITY : ℚ := 530

/-- Modelled from the spec: `lerp` from the utils module, which is not among
the given sources. The spec describes horizontal velocity as "smoothed
toward a fixed target speed (or zero) using linear interpolation with a
fixed blend factor (0.25)", so `lerp a b t` interpolates from `a` to `b`
by fraction `t`. -/
def lerp (a b t : ℚ) : ℚ := a + (b - a) * t

/-- `apply_gravity` from `player.rs`, acting on the linear velocity of the
player. `tileSize` is the `TILE_SIZE` constant from the chunk module (not
among the given sources) and `dt` is the frame delta time, both passed as
parameters. -/
def apply_gravity (tileSize dt : ℚ) (p : Player) (v : Vec2) : Vec2 :=
  if !p.noclip then
    if !p.is_on_ground then
      if v.y > -TERMINAL_GRAVITY then
        ⟨v.x, v.y - GRAVITY_ACCEL * tileSize * dt⟩
      else if v.y < -TERMINAL_GRAVITY then
        ⟨v.x, -TERMINAL_GRAVITY⟩
      else v
    else v
  else v

/-- The `noclip` flag after the KeyF toggle at the top of `player_input`:
`if keyboard_input.just_pressed(KeyCode::KeyF) \x7b player.noclip = !player.noclip \x7d`. -/
def noclip_after (kb : Keyboard) (p : Player) : Bool :=
  if kb.fJustPressed then !p.noclip else p.noclip

/-- The jump / upward key set of `player_input`: Space, KeyW or ArrowUp. -/
def jump_pressed (kb : Keyboard) : Bool := kb.space || kb.w || kb.up

/-- The downward key set of the fly-through block of `player_input`: KeyS or
ArrowDown. -/
def down_pressed (kb : Keyboard) : Bool := kb.s || kb.down

/-- `player_input` from `player.rs`. It returns the updated linear velocity
and the updated `Player` component. `tileSize` is `TILE_SIZE` passed as a
parameter. The source computes the horizontal velocity and the direction in
a single if-else chain; here the two results of that chain are written as
two if-else chains over the same conditions, which assign exactly the same
values. The jump branch is the nest
`if up \x7b if !noclip \x7b if is_on_ground \x7b vy = jump_force \x7d \x7d \x7d`,
written as one conjunction, and the fly-through vertical block lerps the
velocity left by the jump branch, as in the source. -/
def player_input (tileSize : ℚ) (kb : Keyboard) (v : Vec2) (p : Player) : Vec2 × Player :=
  let speed : ℚ := tileSize * 10
  let jump_force : ℚ := 16 * tileSize
  let noclip1 := noclip_after kb p
  let vx : ℚ :=
    if kb.left || kb.a then lerp v.x (-speed) (1/4)
    else if kb.right || kb.d then lerp v.x speed (1/4)
    else lerp v.x 0 (1/4)
  let dir : ℤ :=
    if kb.left || kb.a then -1
    else if kb.right || kb.d then 1
    else if p.is_on_ground then 0 else p.direction
  let vy1 : ℚ :=
    if jump_pressed kb && !noclip1 && p.is_on_ground then jump_force else v.y
  let vy2 : ℚ :=
    if noclip1 then
      if down_pressed kb then lerp vy1 (-speed) (1/4)
      else if jump_pressed kb then lerp vy1 speed (1/4)
      else lerp vy1 0 (1/4)
    else vy1
  (⟨vx, vy2⟩, { p with noclip := noclip1, direction := dir })

/-- `update_grounded` from `player.rs`: the player is grounded exactly when
some probe hit has `normal1.y > 0.0 || normal2.y > 0.0`. -/
def update_grounded (hits : List ShapeHit) (p : Player) : Player :=
  { p with is_on_ground :=
      hits.any fun hit =>
        if 0 < hit.normal1.y ∨ 0 < hit.normal2.y then true else false }

/-- `rotate_player` from `player.rs`, on the sprite of a present player.
`fracPiHalf` stands for the `f32` constant `FRAC_PI_2` and `dt` for the
frame delta time. The returned pair is the updated `PlayerSprite` and the
angle written into the transform rotation (the source wraps this angle in a
quaternion about the Z axis, represented here by the angle itself). -/
def rotate_player (fracPiHalf dt : ℚ) (p : Player) (s : PlayerSprite) : PlayerSprite × ℚ :=
  let rot : ℚ :=
    if !p.is_on_ground then
      s.rotation - 9.6 * dt * (p.direction : ℚ)
    else
      let nineties : ℚ := (round (s.rotation / fracPiHalf) : ℤ) * fracPiHalf
      lerp s.rotation nineties (1/4)
  (⟨rot⟩, rot)

/-- The body of the innermost loop of `solve_collisions` in `player.rs`, for
one contact point: contacts are filtered by `penetration > 0.0`, then the
position is pushed out along the normal by the penetration and each velocity
axis along which the normal has a nonzero component is zeroed. -/
def resolve_contact (normal : Vec2) (penetration : ℚ) (pos vel : Vec2) : Vec2 × Vec2 :=
  if 0 < penetration then
    (⟨pos.x + normal.x * penetration, pos.y + normal.y * penetration⟩,
     ⟨if normal.x ≠ 0 then 0 else vel.x, if normal.y ≠ 0 then 0 else vel.y⟩)
  else (pos, vel)

/-- The manifold loop of `solve_collisions`: every contact point of the
manifold is resolved in order against the manifold normal. -/
def solve_manifold (normal : Vec2) (penetrations : List ℚ) (pv : Vec2 × Vec2) : Vec2 × Vec2 :=
  penetrations.foldl (fun pv pen => resolve_contact normal pen pv.1 pv.2) pv

/-- `solve_collisions` over the manifolds of one contact pair involving the
player, each manifold given by its (already oriented) normal and the
penetrations of its contact points. -/
def solve_collisions (manifolds : List (Vec2 × List ℚ)) (pv : Vec2 × Vec2) : Vec2 × Vec2 :=
  manifolds.foldl (fun pv m => solve_manifold m.1 m.2 pv) pv

/-- Modelled from the spec: `get_chunk_position` from the utils module,
which is not among the given sources. The spec says a chunk is "a
fixed-size tile region of the game world" and that the function "converts
the player's world-space position into chunk coordinates", so the chunk
coordinate is the floor division of the tile position by the chunk side
length `w`. -/
def get_chunk_position (w : ℤ) (p : IVec2) : IVec2 :=
  ⟨Int.fdiv p.x w, Int.fdiv p.y w⟩

/-- The tile position computed by `set_chunk_pos`: the translation is
floored componentwise (`.xy().floor()`), divided by `TILE_SIZE` and floored
again to an integer vector. -/
def player_tile_pos (tileSize : ℚ) (translation : Vec2) : IVec2 :=
  ⟨⌊((⌊translation.x⌋ : ℤ) : ℚ) / tileSize⌋, ⌊((⌊translation.y⌋ : ℤ) : ℚ) / tileSize⌋⟩

/-- The chunk coordinate `set_chunk_pos` computes for a player translation. -/
def player_chunk (tileSize : ℚ) (w : ℤ) (translation : Vec2) : IVec2 :=
  get_chunk_position w (player_tile_pos tileSize translation)

/-- `set_chunk_pos` from `player.rs`, for a present player: returns the new
stored `CurrentChunkPosition` and the list of `UnloadChunks` events sent.
If the stored chunk position differs from the chunk of the player
translation, one non-forced event is sent and the stored position is
updated; otherwise nothing happens. -/
def set_chunk_pos (tileSize : ℚ) (w : ℤ) (translation : Vec2) (stored : IVec2) :
    IVec2 × List UnloadChunks :=
  if stored ≠ player_chunk tileSize w translation then
    (player_chunk tileSize w translation, [⟨false⟩])
  else
    (stored, [])

/-- The outcome of `spawn_player`: the spawned `Player` component and its
initial translation, the rotation of the child sprite, and the events
sent. -/
structure SpawnedPlayer where
  player : Player
  translation : Vec2
  spriteRotation : ℚ
  events : List UnloadChunks
deriving DecidableEq

/-- `spawn_player` from `player.rs`: spawns the player with
`is_on_ground: false, direction: 0, noclip: false` at translation
`(16.0, 50.0)` with a child sprite at rotation `0.0`, and sends
`UnloadChunks \x7b force: true \x7d`. -/
def spawn_player : SpawnedPlayer :=
  { player := ⟨false, 0, false⟩
  , translation := ⟨16, 50⟩
  , spriteRotation := 0
  , events := [⟨true⟩] }

/-- `is_inside_valid_chunk` from `player.rs`: true exactly when some loaded
chunk has the stored chunk position. -/
def is_inside_valid_chunk (chunks : List IVec2) (stored : IVec2) : Bool :=
  chunks.any fun c => if c = stored then true else false

/-- `is_not_in_noclip` as a system run condition: the query result is
`none` when the player entity is absent, and `get_single().unwrap()`
panics there, modelled by the outer `none`. -/
def is_not_in_noclip_sys (q : Option Player) : Option Bool :=
  q.map fun p => !p.noclip

/-- `player_input` as a system: `get_single_mut` returning `Err` makes the
whole system a silent no-op (`some none`: no abort and no player state). -/
def player_input_sys (tileSize : ℚ) (kb : Keyboard) (q : Option (Vec2 × Player)) :
    Option (Option (Vec2 × Player)) :=
  some (q.map fun vp => player_input tileSize kb vp.1 vp.2)

/-- `apply_gravity` as a system: a silent no-op when the player is absent. -/
def apply_gravity_sys (tileSize dt : ℚ) (q : Option (Vec2 × Player)) :
    Option (Option (Vec2 × Player)) :=
  some (q.map fun vp => (apply_gravity tileSize dt vp.2 vp.1, vp.2))

/-- `update_grounded` as a system: the `iter_mut` loop simply runs over an
empty query when the player is absent. -/
def update_grounded_sys (q : Option (List ShapeHit × Player)) :
    Option (Option Player) :=
  some (q.map fun hp => update_grounded hp.1 hp.2)

/-- `rotate_player` as a system: both queries are `if let`-guarded, so an
absent sprite or player leaves the sprite state untouched. -/
def rotate_player_sys (fracPiHalf dt : ℚ) (sq : Option PlayerSprite) (pq : Option Player) :
    Option (Option PlayerSprite) :=
  some (match sq, pq with
        | some s, some p => some (rotate_player fracPiHalf dt p s).1
        | some s, none => some s
        | none, _ => none)

/-- `set_chunk_pos` as a system: `get_single().unwrap()` panics when the
player is absent, modelled by `none`. -/
def set_chunk_pos_sys (tileSize : ℚ) (w : ℤ) (q : Option Vec2) (stored : IVec2) :
    Option (IVec2 × List UnloadChunks) :=
  q.map fun tr => set_chunk_pos tileSize w tr stored

/-- The player states reachable from spawn by any sequence of
`player_input` updates, under any keyboard input, velocity and tile size. -/
inductive ReachablePlayer : Player → Prop where
  | spawn : ReachablePlayer spawn_player.player
  | step (ts : ℚ) (kb : Keyboard) (v : Vec2) (p : Player) :
      ReachablePlayer p → ReachablePlayer (player_input ts kb v p).2

/-- The `noclip` flag produced by `player_input` is the toggled flag,
independently of the velocity and the other keys. -/
theorem player_input_noclip_eq (ts : ℚ) (kb : Keyboard) (v : Vec2) (p : Player) :
    (player_input ts kb v p).2.noclip = noclip_after kb p := rfl

/-- The `direction` produced by `player_input`, read off the if-else chain. -/
theorem player_input_direction_eq (ts : ℚ) (kb : Keyboard) (v : Vec2) (p : Player) :
    (player_input ts kb v p).2.direction =
      if kb.left || kb.a then -1
      else if kb.right || kb.d then 1
      else if p.is_on_ground then 0 else p.direction := rfl

/-- Claim C1, counterexample: an airborne, non-fly-through player moving
upward at speed 1000 (magnitude above the terminal value 530) still has
vertical speed magnitude above 530 after `apply_gravity` (tile size 16,
delta time 1/100), so the claimed clamp to the terminal magnitude fails for
upward motion. -/
theorem apply_gravity_terminal_cex :
    (⟨false, 0, false⟩ : Player).is_on_ground = false
    ∧ (⟨false, 0, false⟩ : Player).noclip = false
    ∧ |(⟨0, 1000⟩ : Vec2).y| > TERMINAL_GRAVITY
    ∧ |(apply_gravity 16 (1/100) ⟨false, 0, false⟩ ⟨0, 1000⟩).y| > TERMINAL_GRAVITY := by
  refine ⟨rfl, rfl, by norm_num [TERMINAL_GRAVITY], ?_⟩
  have h : (apply_gravity 16 (1/100) ⟨false, 0, false⟩ ⟨0, 1000⟩).y = 984.3088 := by
    norm_num [apply_gravity, GRAVITY_ACCEL, TERMINAL_GRAVITY]
  rw [h, abs_of_pos (by norm_num)]
  norm_num [TERMINAL_GRAVITY]

/-- Claim C1, amended: for every frame in which the player is airborne, not
in fly-through mode, and whose vertical velocity is downward at or beyond
the terminal value (at most -530) before the update, after `apply_gravity`
the vertical velocity is exactly -530, so the downward speed magnitude does
not exceed the terminal value; upward speeds are not clamped. -/
theorem apply_gravity_terminal_clamp (ts dt : ℚ) (p : Player) (v : Vec2)
    (hg : p.is_on_ground = false) (hn : p.noclip = false)
    (hv : v.y ≤ -TERMINAL_GRAVITY) :
    (apply_gravity ts dt p v).y = -TERMINAL_GRAVITY
    ∧ |(apply_gravity ts dt p v).y| ≤ TERMINAL_GRAVITY := by
  have hngt : ¬ (v.y > -TERMINAL_GRAVITY) := not_lt.mpr hv
  have h1 : (apply_gravity ts dt p v).y = -TERMINAL_GRAVITY := by
    unfold apply_gravity
    rw [hn, hg]
    simp only [Bool.not_false, if_true]
    rw [if_neg hngt]
    by_cases h : v.y < -TERMINAL_GRAVITY
    · rw [if_pos h]
    · rw [if_neg h]
      exact le_antisymm hv (not_lt.mp h)
  refine ⟨h1, ?_⟩
  rw [h1, abs_neg, abs_of_nonneg (by norm_num [TERMINAL_GRAVITY])]

/-- Witness for the amended claim C1 at tile size 16, delta time 1/100, and
downward velocity -1000. -/
theorem apply_gravity_terminal_clamp_witness :
    (⟨false, 0, false⟩ : Player).is_on_ground = false
    ∧ (⟨false, 0, false⟩ : Player).noclip = false
    ∧ (⟨0, -1000⟩ : Vec2).y ≤ -TERMINAL_GRAVITY
    ∧ ((apply_gravity 16 (1/100) ⟨false, 0, false⟩ ⟨0, -1000⟩).y = -TERMINAL_GRAVITY
      ∧ |(apply_gravity 16 (1/100) ⟨false, 0, false⟩ ⟨0, -1000⟩).y| ≤ TERMINAL_GRAVITY) :=
  ⟨rfl, rfl, by norm_num [TERMINAL_GRAVITY],
   apply_gravity_terminal_clamp 16 (1/100) ⟨false, 0, false⟩ ⟨0, -1000⟩ rfl rfl
     (by norm_num [TERMINAL_GRAVITY])⟩

/-- Claim C2: for every contact processed by `solve_collisions` whose
normal is purely vertical and whose penetration is strictly positive, after
resolution the vertical velocity is exactly zero, the horizontal velocity is
untouched, and the position is displaced along the normal by exactly the
penetration amount; a contact with non-positive penetration changes
nothing. -/
theorem solve_collisions_vertical_contact (n : Vec2) (pen : ℚ) (pos vel : Vec2)
    (hx : n.x = 0) (hy : n.y ≠ 0) :
    (0 < pen →
      resolve_contact n pen pos vel = (⟨pos.x, pos.y + n.y * pen⟩, ⟨vel.x, 0⟩))
    ∧ (pen ≤ 0 → resolve_contact n pen pos vel = (pos, vel)) := by
  constructor
  · intro hp
    unfold resolve_contact
    rw [if_pos hp, hx]
    simp [hy]
  · intro hp
    unfold resolve_contact
    rw [if_neg (not_lt.mpr hp)]

/-- Witness for claim C2 with normal (0, 1), penetration 1, position
(2, 3) and velocity (4, 5). -/
theorem solve_collisions_vertical_contact_witness :
    (⟨0, 1⟩ : Vec2).x = 0 ∧ (⟨0, 1⟩ : Vec2).y ≠ 0
    ∧ ((0 < (1 : ℚ) →
        resolve_contact ⟨0, 1⟩ 1 ⟨2, 3⟩ ⟨4, 5⟩ = (⟨2, 3 + 1 * 1⟩, ⟨4, 0⟩))
      ∧ ((1 : ℚ) ≤ 0 → resolve_contact ⟨0, 1⟩ 1 ⟨2, 3⟩ ⟨4, 5⟩ = (⟨2, 3⟩, ⟨4, 5⟩))) :=
  ⟨rfl, by norm_num,
   solve_collisions_vertical_contact ⟨0, 1⟩ 1 ⟨2, 3⟩ ⟨4, 5⟩ rfl (by norm_num)⟩

/-- Claim C3: `set_chunk_pos` emits exactly one non-forced `UnloadChunks`
signal and stores the new chunk coordinate exactly when the chunk of the
player translation differs from the stored chunk position; otherwise no
signal is emitted and the stored position is unchanged. -/
theorem set_chunk_pos_signal_iff (ts : ℚ) (w : ℤ) (tr : Vec2) (stored : IVec2) :
    (stored ≠ player_chunk ts w tr →
      set_chunk_pos ts w tr stored = (player_chunk ts w tr, [⟨false⟩]))
    ∧ (stored = player_chunk ts w tr →
      set_chunk_pos ts w tr stored = (stored, [])) := by
  constructor
  · intro hne
    unfold set_chunk_pos
    rw [if_pos hne]
  · intro heq
    unfold set_chunk_pos
    rw [if_neg (fun hne => hne heq)]

/-- Witness for claim C3 at tile size 16, chunk width 16, translation
(0, 0): stored position (1, 1) differs from the computed chunk and gets one
non-forced signal; a stored position equal to the computed chunk gets
none. -/
theorem set_chunk_pos_signal_iff_witness :
    ((⟨1, 1⟩ : IVec2) ≠ player_chunk 16 16 ⟨0, 0⟩
      ∧ set_chunk_pos 16 16 ⟨0, 0⟩ ⟨1, 1⟩ = (player_chunk 16 16 ⟨0, 0⟩, [⟨false⟩]))
    ∧ (set_chunk_pos 16 16 ⟨0, 0⟩ (player_chunk 16 16 ⟨0, 0⟩) =
        (player_chunk 16 16 ⟨0, 0⟩, [])) := by
  have hch : player_chunk 16 16 ⟨0, 0⟩ = ⟨0, 0⟩ := by
    simp [player_chunk, player_tile_pos, get_chunk_position, Int.zero_fdiv]
  have hne : (⟨1, 1⟩ : IVec2) ≠ player_chunk 16 16 ⟨0, 0⟩ := by
    rw [hch]; simp
  exact ⟨⟨hne, (set_chunk_pos_signal_iff 16 16 ⟨0, 0⟩ ⟨1, 1⟩).1 hne⟩,
    (set_chunk_pos_signal_iff 16 16 ⟨0, 0⟩ (player_chunk 16 16 ⟨0, 0⟩)).2 rfl⟩

/-- Claim C4: `spawn_player` always sends exactly one `UnloadChunks` event,
and it has `force = true`. -/
theorem spawn_player_forced_signal :
    spawn_player.events = [⟨true⟩] := rfl

/-- Claim C5: after `update_grounded` runs, the player is grounded exactly
when some probe hit has a strictly positive vertical normal component on at
least one side of the contact. -/
theorem update_grounded_iff (hits : List ShapeHit) (p : Player) :
    (update_grounded hits p).is_on_ground = true ↔
      ∃ h ∈ hits, 0 < h.normal1.y ∨ 0 < h.normal2.y := by
  simp [update_grounded, List.any_eq_true]

/-- Claim C6: with a jump key pressed, `player_input` sets the vertical
velocity to the fixed jump impulse `16.0 * TILE_SIZE` exactly when the
player is grounded and not in fly-through mode (after the toggle); when
airborne and not in fly-through mode the vertical velocity is untouched,
and in fly-through mode it is lerped toward the free-movement target speed
instead. -/
theorem player_input_jump_impulse (ts : ℚ) (kb : Keyboard) (v : Vec2) (p : Player)
    (hup : jump_pressed kb = true) :
    (noclip_after kb p = false → p.is_on_ground = true →
      (player_input ts kb v p).1.y = 16 * ts)
    ∧ (noclip_after kb p = false → p.is_on_ground = false →
      (player_input ts kb v p).1.y = v.y)
    ∧ (noclip_after kb p = true →
      (player_input ts kb v p).1.y =
        lerp v.y (if down_pressed kb then -(ts * 10) else ts * 10) (1/4)) := by
  refine ⟨fun h1 h2 => ?_, fun h1 h2 => ?_, fun h1 => ?_⟩
  · simp [player_input, hup, h1, h2]
  · simp [player_input, hup, h1, h2]
  · by_cases hd : down_pressed kb = true
    · simp [player_input, hup, h1, hd]
    · simp [player_input, hup, h1, hd]

/-- Witness for claim C6: Space pressed, grounded, not in fly-through mode,
tile size 16 gives vertical velocity 16 * 16. -/
theorem player_input_jump_impulse_witness :
    jump_pressed ⟨false, false, false, false, false, true, false, false, false, false⟩ = true
    ∧ noclip_after ⟨false, false, false, false, false, true, false, false, false, false⟩
        ⟨true, 0, false⟩ = false
    ∧ (⟨true, 0, false⟩ : Player).is_on_ground = true
    ∧ (player_input 16 ⟨false, false, false, false, false, true, false, false, false, false⟩
        ⟨0, 0⟩ ⟨true, 0, false⟩).1.y = 16 * 16 :=
  ⟨rfl, rfl, rfl,
   (player_input_jump_impulse 16
     ⟨false, false, false, false, false, true, false, false, false, false⟩
     ⟨0, 0⟩ ⟨true, 0, false⟩ rfl).1 rfl rfl⟩

/-- Claim C7: when the toggle key is freshly pressed, running `player_input`
twice restores the `noclip` flag to its pre-toggle value: the fly-through
toggle is an involution on the noclip state. -/
theorem player_input_toggle_involutive (ts : ℚ) (kb : Keyboard) (v : Vec2) (p : Player)
    (hf : kb.fJustPressed = true) :
    (player_input ts kb (player_input ts kb v p).1
      (player_input ts kb v p).2).2.noclip = p.noclip := by
  simp [player_input_noclip_eq, noclip_after, hf]

/-- Witness for claim C7: two runs with KeyF freshly pressed leave a
non-noclip player non-noclip. -/
theorem player_input_toggle_involutive_witness :
    (⟨true, false, false, false, false, false, false, false, false, false⟩ : Keyboard).fJustPressed = true
    ∧ (player_input 1 ⟨true, false, false, false, false, false, false, false, false, false⟩
        (player_input 1 ⟨true, false, false, false, false, false, false, false, false, false⟩
          ⟨0, 0⟩ ⟨false, 0, false⟩).1
        (player_input 1 ⟨true, false, false, false, false, false, false, false, false, false⟩
          ⟨0, 0⟩ ⟨false, 0, false⟩).2).2.noclip = (⟨false, 0, false⟩ : Player).noclip :=
  ⟨rfl,
   player_input_toggle_involutive 1
     ⟨true, false, false, false, false, false, false, false, false, false⟩
     ⟨0, 0⟩ ⟨false, 0, false⟩ rfl⟩

/-- Claim C8: in fly-through mode `apply_gravity` leaves the velocity
entirely unchanged, whatever the grounded state and current velocity. -/
theorem apply_gravity_noclip_id (ts dt : ℚ) (p : Player) (v : Vec2)
    (hn : p.noclip = true) :
    apply_gravity ts dt p v = v := by
  unfold apply_gravity
  rw [hn]
  simp

/-- Witness for claim C8 at a noclip player with velocity (3, -9999). -/
theorem apply_gravity_noclip_id_witness :
    (⟨false, 0, true⟩ : Player).noclip = true
    ∧ apply_gravity 16 (1/100) ⟨false, 0, true⟩ ⟨3, -9999⟩ = ⟨3, -9999⟩ :=
  ⟨rfl, apply_gravity_noclip_id 16 (1/100) ⟨false, 0, true⟩ ⟨3, -9999⟩ rfl⟩

/-- Claim C9, counterexample: the `is_not_in_noclip` run condition does not
silently no-op when the player entity is absent: it aborts (the modelled
`unwrap` panic), producing no boolean at all. -/
theorem noclip_runcond_absent_cex :
    ¬ ∃ b : Bool, is_not_in_noclip_sys none = some b := by
  intro h
  obtain ⟨b, hb⟩ := h
  simp [is_not_in_noclip_sys] at hb

/-- Claim C9, amended: when the expected singleton player entity is absent,
chunk-tracking (`set_chunk_pos`) and the `is_not_in_noclip` run condition
abort fatally, while the per-frame systems `player_input`, `apply_gravity`,
`update_grounded` and `rotate_player` silently no-op (no state change, no
abort). -/
theorem absent_player_behavior :
    (∀ (ts : ℚ) (w : ℤ) (stored : IVec2), set_chunk_pos_sys ts w none stored = none)
    ∧ is_not_in_noclip_sys none = none
    ∧ (∀ (ts : ℚ) (kb : Keyboard), player_input_sys ts kb none = some none)
    ∧ (∀ (ts dt : ℚ), apply_gravity_sys ts dt none = some none)
    ∧ update_grounded_sys none = some none
    ∧ (∀ (fph dt : ℚ) (sq : Option PlayerSprite),
        rotate_player_sys fph dt sq none = some sq) := by
  refine ⟨fun ts w stored => rfl, rfl, fun ts kb => rfl, fun ts dt => rfl, rfl,
    fun fph dt sq => ?_⟩
  cases sq <;> rfl

/-- Claim C10: every player state reachable from spawn by `player_input`
updates has direction -1, 0 or 1. -/
theorem direction_invariant (p : Player) (h : ReachablePlayer p) :
    p.direction = -1 ∨ p.direction = 0 ∨ p.direction = 1 := by
  induction h with
  | spawn => exact Or.inr (Or.inl rfl)
  | step ts kb v q hq ih =>
    rw [player_input_direction_eq]
    by_cases h1 : (kb.left || kb.a) = true
    · simp [h1]
    · by_cases h2 : (kb.right || kb.d) = true
      · simp [h1, h2]
      · by_cases h3 : q.is_on_ground = true
        · simp [h1, h2, h3]
        · simpa [h1, h2, h3] using ih

/-- Witness for claim C10 at the spawn state, whose direction is 0. -/
theorem direction_invariant_witness :
    ReachablePlayer spawn_player.player
    ∧ (spawn_player.player.direction = -1 ∨ spawn_player.player.direction = 0
      ∨ spawn_player.player.direction = 1) :=
  ⟨ReachablePlayer.spawn, direction_invariant spawn_player.player ReachablePlayer.spawn⟩
